import Mathlib

/-!
Verification of the Voice-of-Customer analysis engine (`src/analyzer.py`).

The program is a single linear pipeline: load a CSV of feedback rows,
filter the rows whose `signal_score` exceeds 7.0, format the filtered rows
into a text block, send the block to a remote summarizer, and merge the
remote summary with descriptive statistics over the *full* table.

The development below is a shallow embedding of that pipeline:

* `FeedbackRow` / `Signals` model the rows of the loaded dataframe and the
  dict returned by `FeedbackAnalyzer._extract_signals`.
* Scores are embedded as rationals (`ℚ`); every score appearing in the
  claims is a short decimal, exactly representable both as a binary float
  and as a rational, so rational arithmetic coincides with the float
  arithmetic the program performs on them.  The `NaN` produced by
  `pandas.Series.mean` on an empty column is modelled by `Option ℚ`
  (`none` = NaN).
* The remote Claude call is modelled by an oracle `claude : String → String`;
  the pipeline applies it exactly where `analyze_batch` calls
  `_call_claude_api`.
* A second, column-indexed layer (`Df`, `analyze_batch_df`) models the
  pandas column accesses (`df['signal_score']` etc.) together with the
  `KeyError` they raise when the column is absent.
-/

namespace Voc

/-- One customer feedback entry: one row of the loaded table, with the
columns `checkout_stage`, `feedback_text`, `signal_score`. -/
structure FeedbackRow where
  stage : String
  text : String
  score : ℚ
deriving DecidableEq, Repr

/-- The dict returned by `FeedbackAnalyzer._extract_signals`.  `top_stages`
is an association list because a Python dict preserves insertion order;
`avg_signal_score` is `none` exactly when pandas would return `NaN`. -/
structure Signals where
  summary : String
  high_priority_count : Nat
  total_analyzed : Nat
  top_stages : List (String × Nat)
  avg_signal_score : Option ℚ
deriving DecidableEq, Repr

/-- Digits of the fractional part of `0 ≤ q < 1`, most significant first.
Fuel-bounded so the definition is total; 17 digits suffice for every score
a CSV of short decimals can contain. -/
def decimalDigits : ℚ → Nat → String
  | _, 0 => ""
  | q, fuel + 1 =>
    if q = 0 then ""
    else
      let d := (q * 10).floor
      toString d.toNat ++ decimalDigits (q * 10 - (d : ℚ)) fuel

/-- Rendering of a score by the f-string `{row['signal_score']}`: Python
prints a float with at least one fractional digit (`9.0`, `8.5`).  Faithful
for every finite decimal, which is the only kind of score the claims use. -/
def showScore (q : ℚ) : String :=
  let sgn := if q < 0 then "-" else ""
  let a := if q < 0 then -q else q
  let ip := a.floor
  let ds := decimalDigits (a - (ip : ℚ)) 17
  sgn ++ toString ip.toNat ++ "." ++ (if ds = "" then "0" else ds)

/-- One line of the formatted block:
`f"[{row['checkout_stage']}] {row['feedback_text']} (score: {row['signal_score']})\n"`. -/
def render_row (r : FeedbackRow) : String :=
  "[" ++ r.stage ++ "] " ++ r.text ++ " (score: " ++ showScore r.score ++ ")\n"

/-- `high_signal = df[df['signal_score'] > 7.0]` in `_prepare_feedback`. -/
def high_signal (rows : List FeedbackRow) : List FeedbackRow :=
  rows.filter fun r => decide ((7 : ℚ) < r.score)

/-- `FeedbackAnalyzer._prepare_feedback`: the header string followed by one
rendered line per high-signal row, accumulated left to right. -/
def prepare_feedback (rows : List FeedbackRow) : String :=
  (high_signal rows).foldl (fun acc r => acc ++ render_row r)
    "High-priority customer feedback:\n\n"

/-- Unique values of a list in order of first appearance: the key order in
which a pandas hash table enumerates the unique values of a column. -/
def firstUniques : List String → List String
  | [] => []
  | x :: xs => x :: (firstUniques xs).filter fun y => decide (y ≠ x)

/-- Stable insertion keeping counts descending: the new pair goes after
every pair with a strictly larger count and before the rest. -/
def insertDesc (p : String × Nat) : List (String × Nat) → List (String × Nat)
  | [] => [p]
  | q :: rest => if p.2 < q.2 then q :: insertDesc p rest else p :: q :: rest

/-- Stable sort by descending count. -/
def sortByCountDesc (l : List (String × Nat)) : List (String × Nat) :=
  l.foldr insertDesc []

/-- `Series.value_counts()` on a column: the unique values with their
occurrence counts, in descending count order; ties keep first-appearance
order (the hash table yields uniques in first-appearance order and the
descending sort is observed stable). -/
def value_counts (xs : List String) : List (String × Nat) :=
  sortByCountDesc ((firstUniques xs).map fun s => (s, xs.count s))

/-- `Series.mean()`: `NaN` (here `none`) on an empty column, otherwise the
sum divided by the length. -/
def series_mean (xs : List ℚ) : Option ℚ :=
  if xs.length = 0 then none else some (xs.sum / (xs.length : ℚ))

/-- `FeedbackAnalyzer._extract_signals`, generalized over the filtering
threshold; the source hardcodes `7.0` (see `extract_signals`).  Only
`high_priority_count` mentions the threshold. -/
def extract_signals_at (th : ℚ) (analysis : String) (rows : List FeedbackRow) :
    Signals where
  summary := analysis
  high_priority_count := (rows.filter fun r => decide (th < r.score)).length
  total_analyzed := rows.length
  top_stages := (value_counts (rows.map FeedbackRow.stage)).take 3
  avg_signal_score := series_mean (rows.map FeedbackRow.score)

/-- `FeedbackAnalyzer._extract_signals` with the source's threshold `7.0`. -/
def extract_signals : String → List FeedbackRow → Signals :=
  extract_signals_at 7

/-- `FeedbackAnalyzer.analyze_batch` on a successfully loaded table: format
the high-signal feedback, call the remote summarizer on it, and extract the
signals from the full table. -/
def analyze_batch (claude : String → String) (rows : List FeedbackRow) : Signals :=
  extract_signals (claude (prepare_feedback rows)) rows

/-- Credential resolution in `FeedbackAnalyzer.__init__`:
`api_key or os.environ.get("ANTHROPIC_API_KEY")` — Python `or` takes the
right operand when the left is falsy (`None` or the empty string). -/
def resolve_api_key (apiKey : Option String) (env : Option String) : Option String :=
  match apiKey with
  | none => env
  | some s => if s = "" then env else some s

/-- The reporter's `f"{results['avg_signal_score']:.2f}"` as a rational:
round to two decimal places. -/
def format_two_dec (q : ℚ) : ℚ :=
  ((round (q * 100) : ℤ) : ℚ) / 100

/-! ## The `__main__` entry point -/

/-- What the `if __name__ == "__main__"` block decides from `sys.argv`:
either print the usage message and `sys.exit(1)`, or proceed to the
pipeline on `sys.argv[1]`.  Loading the file and calling the remote
service happen only on the `run` branch. -/
inductive MainOutcome where
  | usageExit : String → Nat → MainOutcome
  | run : String → MainOutcome
deriving DecidableEq, Repr

/-- The literal usage message printed when no path is supplied. -/
def usage_message : String :=
  "Usage: python analyzer.py <path_to_feedback.csv>"

/-- `if len(sys.argv) < 2: print(usage); sys.exit(1)` else run on
`sys.argv[1]`. -/
def main_dispatch (argv : List String) : MainOutcome :=
  if argv.length < 2 then .usageExit usage_message 1
  else .run (argv.getD 1 "")

/-- Whether an outcome reaches `pd.read_csv` (and hence the network call):
only the `run` branch does, the usage branch exits first. -/
def main_loads_file : MainOutcome → Bool
  | .usageExit _ _ => false
  | .run _ => true

/-! ## The column-indexed dataframe layer

`_prepare_feedback` and `_extract_signals` address the dataframe by column
name; when a named column is absent, pandas raises `KeyError`.  This layer
models those accesses (and the resulting short-circuit before the network
call); the typed layer above is its restriction to well-formed tables. -/

/-- A dataframe cell: the columns of this program hold strings or floats. -/
inductive Cell where
  | str : String → Cell
  | num : ℚ → Cell
deriving DecidableEq, Repr

/-- The errors the pandas calls of this program can raise: `KeyError` for a
missing column, `TypeError` for comparing/averaging a non-numeric column. -/
inductive PdError where
  | keyError : String → PdError
  | typeError : PdError
deriving DecidableEq, Repr

/-- An in-memory dataframe: named columns and row-major cells. -/
structure Df where
  columns : List String
  rows : List (List Cell)
deriving DecidableEq, Repr

/-- `df[c]` for a column name `c`: the column's cells, or `KeyError c`. -/
def df_col (df : Df) (c : String) : Except PdError (List Cell) :=
  match df.columns.findIdx? (fun n => n == c) with
  | some i => .ok (df.rows.map fun r => r.getD i (.str ""))
  | none => .error (.keyError c)

/-- `row[c]` for one row of the dataframe. -/
def row_get (columns : List String) (r : List Cell) (c : String) :
    Except PdError Cell :=
  match columns.findIdx? (fun n => n == c) with
  | some i => .ok (r.getD i (.str ""))
  | none => .error (.keyError c)

/-- `cell > q`: defined on numeric cells, `TypeError` on strings. -/
def cell_gt (c : Cell) (q : ℚ) : Except PdError Bool :=
  match c with
  | .num x => .ok (decide (q < x))
  | .str _ => .error .typeError

/-- Numeric value of a cell, `TypeError` on strings (as `Series.mean` and
the `> 7.0` comparison raise on a non-numeric column). -/
def cell_num : Cell → Except PdError ℚ
  | .num q => .ok q
  | .str _ => .error .typeError

/-- How an f-string renders a cell. -/
def show_cell : Cell → String
  | .str s => s
  | .num q => showScore q

/-- `_prepare_feedback` on the column-indexed table: `df['signal_score']`
first (raising `KeyError` if absent), then the `> 7.0` mask, then one
rendered line per selected row, each line reading the three columns. -/
def prepare_feedback_df (df : Df) : Except PdError String := do
  let scoreCol ← df_col df "signal_score"
  let mask ← scoreCol.mapM fun c => cell_gt c 7
  let high := ((df.rows.zip mask).filter fun rb => rb.2).map fun rb => rb.1
  let lines ← high.mapM fun r => do
    let st ← row_get df.columns r "checkout_stage"
    let tx ← row_get df.columns r "feedback_text"
    let sc ← row_get df.columns r "signal_score"
    pure ("[" ++ show_cell st ++ "] " ++ show_cell tx ++ " (score: " ++
      show_cell sc ++ ")\n")
  pure (lines.foldl (fun acc ln => acc ++ ln) "High-priority customer feedback:\n\n")

/-- `_extract_signals` on the column-indexed table. -/
def extract_signals_df (analysis : String) (df : Df) : Except PdError Signals := do
  let scoreCells ← df_col df "signal_score"
  let scores ← scoreCells.mapM cell_num
  let stageCells ← df_col df "checkout_stage"
  pure
    { summary := analysis
      high_priority_count := (scores.filter fun q => decide ((7 : ℚ) < q)).length
      total_analyzed := df.rows.length
      top_stages := (value_counts (stageCells.map show_cell)).take 3
      avg_signal_score := series_mean scores }

/-- `analyze_batch` on the column-indexed table: the remote oracle is
applied only after `_prepare_feedback` succeeded. -/
def analyze_batch_df (claude : String → String) (df : Df) :
    Except PdError Signals := do
  let feedback ← prepare_feedback_df df
  let analysis := claude feedback
  extract_signals_df analysis df

/-- `pd.read_csv(csv_path)`: a syntactically well-formed CSV (modelled
directly as its column table) parses successfully; pandas performs no
validation of *which* columns are present.  Character-level parse failures
(unreadable file, ragged rows) are outside the claims' scope. -/
def read_csv (f : Df) : Except PdError Df := .ok f

/-! ## Spec-side definitions -/

/-- Modelled from the spec's words: the arithmetic mean of the score field
of all rows, which does not exist for an empty table. -/
def spec_arith_mean (rows : List FeedbackRow) : Option ℚ :=
  if rows = [] then none
  else some ((rows.map FeedbackRow.score).sum / (rows.length : ℚ))

/-- The scenario table of the spec:
`[("cart", "slow load", 8.5), ("shipping", "confusing form", 9.0), ("cart", "fine", 3.0)]`. -/
def scenario_rows : List FeedbackRow :=
  [⟨"cart", "slow load", 8.5⟩, ⟨"shipping", "confusing form", 9.0⟩,
   ⟨"cart", "fine", 3.0⟩]

/-! ## General helper lemmas -/

lemma string_foldl_append :
    ∀ (l : List String) (a : String),
      l.foldl (fun x y => x ++ y) a = a ++ l.foldl (fun x y => x ++ y) ""
  | [], a => by simp
  | s :: l, a => by
    rw [List.foldl_cons, List.foldl_cons, string_foldl_append l (a ++ s),
      string_foldl_append l ("" ++ s), String.empty_append, String.append_assoc]

lemma prepare_feedback_eq_join (rows : List FeedbackRow) :
    prepare_feedback rows =
      "High-priority customer feedback:\n\n" ++
        String.join ((high_signal rows).map render_row) := by
  rw [prepare_feedback, ← List.foldl_map, String.join, string_foldl_append]

lemma avg_eq_spec_mean (th : ℚ) (analysis : String) (rows : List FeedbackRow) :
    (extract_signals_at th analysis rows).avg_signal_score = spec_arith_mean rows := by
  simp only [extract_signals_at, series_mean, spec_arith_mean, List.length_map]
  rcases eq_or_ne rows [] with rfl | h
  · simp
  · have hl : ¬rows.length = 0 := by simpa [List.length_eq_zero] using h
    rw [if_neg hl, if_neg h]

/-! ## Claim theorems -/

/-- C1: for every feedback table (and any filtering threshold used to select
the text sent to the summarizer), `avg_signal_score` is the arithmetic mean
of the score field of **all** rows — the statistics ignore the 7.0 filter. -/
theorem avg_signal_score_is_unfiltered_mean (th : ℚ) (analysis : String)
    (claude : String → String) (rows : List FeedbackRow) :
    (extract_signals_at th analysis rows).avg_signal_score = spec_arith_mean rows ∧
    (analyze_batch claude rows).avg_signal_score = spec_arith_mean rows :=
  ⟨avg_eq_spec_mean th analysis rows, avg_eq_spec_mean 7 _ rows⟩

/-- C2: in every analysis result, `high_priority_count` (rows with score
strictly above 7.0) is at most `total_analyzed` (all rows). -/
theorem high_priority_count_le_total_analyzed (claude : String → String)
    (rows : List FeedbackRow) :
    (analyze_batch claude rows).high_priority_count ≤
      (analyze_batch claude rows).total_analyzed := by
  simpa [analyze_batch, extract_signals, extract_signals_at] using
    List.length_filter_le (fun r : FeedbackRow => decide ((7 : ℚ) < r.score)) rows

/-- C4: when no row scores strictly above 7.0, the formatted block is
exactly the fixed header, and the remote summarizer is still called with
that minimal payload (the summary in the result is the oracle applied to
the header block). -/
theorem zero_selected_rows_header_only_payload (claude : String → String)
    (rows : List FeedbackRow) (h : ∀ r ∈ rows, r.score ≤ 7) :
    prepare_feedback rows = "High-priority customer feedback:\n\n" ∧
    (analyze_batch claude rows).summary =
      claude "High-priority customer feedback:\n\n" := by
  have hs : high_signal rows = [] := by
    rw [high_signal, List.filter_eq_nil_iff]
    intro r hr
    simpa using not_lt.2 (h r hr)
  have hp : prepare_feedback rows = "High-priority customer feedback:\n\n" := by
    rw [prepare_feedback, hs]
    rfl
  exact ⟨hp, by rw [analyze_batch, hp]; rfl⟩

/-- Witness for C4 at a concrete one-row table with score 3. -/
theorem zero_selected_rows_header_only_payload_witness :
    prepare_feedback [⟨"cart", "fine", 3⟩] =
      "High-priority customer feedback:\n\n" :=
  (zero_selected_rows_header_only_payload (fun s => s) [⟨"cart", "fine", 3⟩]
    (by decide)).1

/-- C9: on an empty table the counts are zero and the mean of the empty
score column does not exist (`NaN` in pandas, `none` here), so there is no
value for the arithmetic-mean postcondition to constrain. -/
theorem empty_table_signals (analysis : String) :
    (extract_signals analysis []).total_analyzed = 0 ∧
    (extract_signals analysis []).high_priority_count = 0 ∧
    (extract_signals analysis []).avg_signal_score = none ∧
    spec_arith_mean [] = none :=
  ⟨rfl, rfl, rfl, rfl⟩

/-- C10: `api_key or os.environ.get("ANTHROPIC_API_KEY")` treats an empty
explicit key like an absent one — the environment value is used whenever
the argument is `None` or `""`; a non-empty argument takes precedence. -/
theorem api_key_falsy_fallback (k env : Option String) :
    ((k = none ∨ k = some "") → resolve_api_key k env = env) ∧
    (∀ s : String, k = some s → s ≠ "" → resolve_api_key k env = some s) := by
  constructor
  · rintro (rfl | rfl) <;> simp [resolve_api_key]
  · rintro s rfl hs
    simp [resolve_api_key, hs]

/-- Witness for C10: empty explicit key falls back to the environment,
a non-empty one wins. -/
theorem api_key_falsy_fallback_witness :
    resolve_api_key (some "") (some "ENVKEY") = some "ENVKEY" ∧
    resolve_api_key (some "sk-test") (some "ENVKEY") = some "sk-test" :=
  ⟨(api_key_falsy_fallback (some "") (some "ENVKEY")).1 (Or.inr rfl),
   (api_key_falsy_fallback (some "sk-test") (some "ENVKEY")).2 "sk-test" rfl
     (by decide)⟩

/-- C8: with no positional argument (`len(sys.argv) < 2`) the program
prints the usage message and exits with status 1; the branch that loads the
file and reaches the network is never taken. -/
theorem missing_argv_usage_exit (argv : List String) (h : argv.length < 2) :
    main_dispatch argv = .usageExit usage_message 1 ∧
    main_loads_file (main_dispatch argv) = false ∧
    (∀ p : String, main_dispatch argv ≠ .run p) := by
  have hd : main_dispatch argv = .usageExit usage_message 1 := by
    simp [main_dispatch, h]
  refine ⟨hd, by rw [hd]; rfl, ?_⟩
  intro p hp
  rw [hd] at hp
  exact MainOutcome.noConfusion hp

/-- Witness for C8 at `sys.argv = ["analyzer.py"]`. -/
theorem missing_argv_usage_exit_witness :
    main_dispatch ["analyzer.py"] = .usageExit usage_message 1 :=
  (missing_argv_usage_exit ["analyzer.py"] (by decide)).1

/-- Full evaluation of the analysis on the spec's scenario table. -/
lemma scenario_eval (a : String) :
    extract_signals a scenario_rows =
      { summary := a, high_priority_count := 2, total_analyzed := 3,
        top_stages := [("cart", 2), ("shipping", 1)],
        avg_signal_score := some (41 / 6) } := by
  simp only [extract_signals, extract_signals_at, scenario_rows, Signals.mk.injEq]
  norm_num [List.filter, series_mean]
  decide

/-- C6 (counterexample): on the scenario table the stored
`avg_signal_score` is not the two-decimal value 6.83 — the field holds
the exact mean 41/6 = 6.8333…, and only the printed report rounds it. -/
theorem scenario_avg_differs_from_6_83 :
    (extract_signals "THEMES:" scenario_rows).avg_signal_score ≠
      some (683 / 100) := by
  rw [scenario_eval]
  intro hc
  rw [Option.some_inj] at hc
  norm_num at hc

/-- C6 (amended): on the scenario table, `total_analyzed = 3`,
`high_priority_count = 2`, `top_stages = {"cart": 2, "shipping": 1}`, and
`avg_signal_score = 41/6 = 6.8333…`, which the report prints as `6.83`
when formatted to two decimal places. -/
theorem scenario_analysis_values (a : String) :
    (extract_signals a scenario_rows).total_analyzed = 3 ∧
    (extract_signals a scenario_rows).high_priority_count = 2 ∧
    (extract_signals a scenario_rows).top_stages =
      [("cart", 2), ("shipping", 1)] ∧
    (extract_signals a scenario_rows).avg_signal_score = some (41 / 6) ∧
    format_two_dec (41 / 6) = 683 / 100 := by
  rw [scenario_eval]
  refine ⟨rfl, rfl, rfl, rfl, ?_⟩
  norm_num [format_two_dec, round_eq]

/-- C3: the formatted block is the fixed header followed by exactly one
line `[stage] text (score: score)` per selected row; the selected rows are
exactly those with score strictly above 7.0, kept in original table order
(they form the filter of the table, a sublist in table order). -/
theorem feedback_block_lists_filtered_rows_in_order (rows : List FeedbackRow) :
    prepare_feedback rows =
      "High-priority customer feedback:\n\n" ++
        String.join ((high_signal rows).map fun r =>
          "[" ++ r.stage ++ "] " ++ r.text ++ " (score: " ++
            showScore r.score ++ ")\n") ∧
    (high_signal rows).Sublist rows ∧
    (∀ r ∈ high_signal rows, 7 < r.score) ∧
    (∀ r ∈ rows, 7 < r.score → r ∈ high_signal rows) := by
  refine ⟨prepare_feedback_eq_join rows, ?_, ?_, ?_⟩
  · rw [high_signal]
    exact List.filter_sublist rows
  · intro r hr
    rw [high_signal] at hr
    simpa using List.of_mem_filter hr
  · intro r hr h7
    rw [high_signal, List.mem_filter]
    exact ⟨hr, by simpa using h7⟩

/-- Witness for C3 at a concrete two-row table: the row scoring 8 is
selected (both filter directions exercised). -/
theorem feedback_block_witness :
    (7 : ℚ) < 8 ∧
    (⟨"a", "t1", 8⟩ : FeedbackRow) ∈ high_signal [⟨"a", "t1", 8⟩, ⟨"b", "t2", 3⟩] :=
  ⟨(feedback_block_lists_filtered_rows_in_order
      [⟨"a", "t1", 8⟩, ⟨"b", "t2", 3⟩]).2.2.1 ⟨"a", "t1", 8⟩ (by decide),
   (feedback_block_lists_filtered_rows_in_order
      [⟨"a", "t1", 8⟩, ⟨"b", "t2", 3⟩]).2.2.2 ⟨"a", "t1", 8⟩ (by decide) (by decide)⟩

/-- A concrete parsed table that lacks the `signal_score` column. -/
def df_no_score : Df :=
  { columns := ["checkout_stage", "feedback_text"],
    rows := [[.str "cart", .str "ok"]] }

/-- C7 (counterexample): on a well-formed file lacking `signal_score` the
load step itself succeeds — `pd.read_csv` does not validate which columns
are present; the failure is the `KeyError` raised later, at the first
`df['signal_score']` access in `_prepare_feedback`. -/
theorem missing_column_load_succeeds :
    read_csv df_no_score = .ok df_no_score ∧
    prepare_feedback_df df_no_score = .error (.keyError "signal_score") ∧
    analyze_batch_df (fun _ => "THEMES:") df_no_score =
      .error (.keyError "signal_score") :=
  ⟨rfl, rfl, rfl⟩

/-- C7 (amended): for every table lacking the `signal_score` column, the
pipeline fails with `KeyError "signal_score"` (the spec taxonomy's
`DataFormatError`) at the first column access in `_prepare_feedback`, and
the remote summarizer is never consulted: the outcome is one fixed error,
identical for every oracle. -/
theorem missing_column_keyerror_before_call (df : Df) (claude : String → String)
    (h : "signal_score" ∉ df.columns) :
    prepare_feedback_df df = .error (.keyError "signal_score") ∧
    analyze_batch_df claude df = .error (.keyError "signal_score") ∧
    (∀ claude' : String → String,
      analyze_batch_df claude df = analyze_batch_df claude' df) := by
  have hf : df.columns.findIdx? (fun n => n == "signal_score") = none := by
    rw [List.findIdx?_eq_none_iff]
    intro x hx
    exact beq_eq_false_iff_ne.2 (fun he => h (he ▸ hx))
  have hcol : df_col df "signal_score" = .error (.keyError "signal_score") := by
    simp [df_col, hf]
  have hprep : prepare_feedback_df df = .error (.keyError "signal_score") := by
    rw [prepare_feedback_df, hcol]
    rfl
  have hbatch : ∀ c : String → String,
      analyze_batch_df c df = .error (.keyError "signal_score") := by
    intro c
    rw [analyze_batch_df, hprep]
    rfl
  exact ⟨hprep, hbatch claude, fun claude' => (hbatch claude).trans (hbatch claude').symm⟩

/-- Witness for C7's amended theorem at the concrete column-less table. -/
theorem missing_column_keyerror_witness :
    analyze_batch_df (fun _ => "SUMMARY") df_no_score =
      .error (.keyError "signal_score") :=
  (missing_column_keyerror_before_call df_no_score (fun _ => "SUMMARY")
    (by decide)).2.1


/-! ## Lemmas for `value_counts` (stable descending sort, first-appearance
order of unique values) -/

lemma insertDesc_perm (p : String × Nat) :
    ∀ l : List (String × Nat), (insertDesc p l).Perm (p :: l)
  | [] => List.Perm.refl _
  | q :: rest => by
    rw [insertDesc]
    by_cases hlt : p.2 < q.2
    · rw [if_pos hlt]
      exact ((insertDesc_perm p rest).cons q).trans (List.Perm.swap p q rest)
    · rw [if_neg hlt]

lemma sortByCountDesc_perm :
    ∀ l : List (String × Nat), (sortByCountDesc l).Perm l
  | [] => List.Perm.refl _
  | x :: l => by
    show (insertDesc x (sortByCountDesc l)).Perm (x :: l)
    exact (insertDesc_perm x _).trans ((sortByCountDesc_perm l).cons x)

lemma mem_insertDesc {x p : String × Nat} {l : List (String × Nat)} :
    x ∈ insertDesc p l ↔ x = p ∨ x ∈ l := by
  rw [(insertDesc_perm p l).mem_iff, List.mem_cons]

lemma insertDesc_sorted {p : String × Nat} :
    ∀ {l : List (String × Nat)}, l.Pairwise (fun a b => b.2 ≤ a.2) →
      (insertDesc p l).Pairwise (fun a b => b.2 ≤ a.2)
  | [], _ => by simp [insertDesc]
  | q :: rest, h => by
    rcases List.pairwise_cons.1 h with ⟨hq, hrest⟩
    rw [insertDesc]
    by_cases hlt : p.2 < q.2
    · rw [if_pos hlt, List.pairwise_cons]
      refine ⟨?_, insertDesc_sorted hrest⟩
      intro x hx
      rcases mem_insertDesc.1 hx with rfl | hx'
      · exact le_of_lt hlt
      · exact hq x hx'
    · rw [if_neg hlt, List.pairwise_cons]
      refine ⟨?_, h⟩
      intro x hx
      rcases List.mem_cons.1 hx with rfl | hx'
      · exact not_lt.1 hlt
      · exact le_trans (hq x hx') (not_lt.1 hlt)

lemma sortByCountDesc_sorted :
    ∀ l : List (String × Nat),
      (sortByCountDesc l).Pairwise (fun a b => b.2 ≤ a.2)
  | [] => List.Pairwise.nil
  | _x :: l => insertDesc_sorted (sortByCountDesc_sorted l)

lemma filter_insertDesc (c : Nat) (p : String × Nat) :
    ∀ l : List (String × Nat),
      (insertDesc p l).filter (fun q => q.2 == c) =
        if p.2 == c then p :: l.filter (fun q => q.2 == c)
        else l.filter (fun q => q.2 == c)
  | [] => by simp [insertDesc, List.filter_cons]
  | q :: rest => by
    rw [insertDesc]
    by_cases hlt : p.2 < q.2
    · rw [if_pos hlt]
      by_cases hq : (q.2 == c) = true
      · have hp : ¬(p.2 == c) = true := by
          intro hp
          rw [beq_iff_eq] at hp hq
          omega
        simp [List.filter_cons, filter_insertDesc c p rest, hq, hp]
      · simp [List.filter_cons, filter_insertDesc c p rest, hq]
    · rw [if_neg hlt]
      simp [List.filter_cons]

lemma sortByCountDesc_stable (c : Nat) :
    ∀ l : List (String × Nat),
      (sortByCountDesc l).filter (fun q => q.2 == c) =
        l.filter (fun q => q.2 == c)
  | [] => rfl
  | x :: l => by
    show (insertDesc x (sortByCountDesc l)).filter _ = _
    rw [filter_insertDesc, sortByCountDesc_stable c l, List.filter_cons]

lemma mem_firstUniques {s : String} :
    ∀ xs : List String, s ∈ firstUniques xs ↔ s ∈ xs
  | [] => Iff.rfl
  | x :: xs => by
    rw [firstUniques]
    by_cases hsx : s = x
    · subst hsx; simp
    · simp [List.mem_filter, hsx, mem_firstUniques xs]

lemma nodup_firstUniques : ∀ xs : List String, (firstUniques xs).Nodup
  | [] => List.nodup_nil
  | x :: xs => by
    rw [firstUniques, List.nodup_cons]
    refine ⟨?_, (nodup_firstUniques xs).filter _⟩
    intro hx
    have := List.of_mem_filter hx
    simp at this

lemma firstUniques_pairwise_indexOf : ∀ xs : List String,
    (firstUniques xs).Pairwise (fun s t => xs.indexOf s < xs.indexOf t)
  | [] => List.Pairwise.nil
  | x :: xs => by
    rw [firstUniques, List.pairwise_cons]
    constructor
    · intro t ht
      have htx : t ≠ x := by simpa using List.of_mem_filter ht
      rw [List.indexOf_cons_self, List.indexOf_cons_ne _ (Ne.symm htx)]
      exact Nat.succ_pos _
    · have htail := (firstUniques_pairwise_indexOf xs).filter
        (fun y => decide (y ≠ x))
      refine htail.imp_of_mem ?_
      intro a b ha hb hab
      have hax : a ≠ x := by simpa using List.of_mem_filter ha
      have hbx : b ≠ x := by simpa using List.of_mem_filter hb
      rw [List.indexOf_cons_ne _ (Ne.symm hax), List.indexOf_cons_ne _ (Ne.symm hbx)]
      exact Nat.succ_lt_succ hab

lemma pairwise_of_filter_pairwise {α : Type} (key : α → Nat) {R : α → α → Prop} :
    ∀ l : List α, (∀ c : Nat, (l.filter fun x => key x == c).Pairwise R) →
      l.Pairwise fun p q => key p = key q → R p q
  | [], _ => List.Pairwise.nil
  | a :: l, h => by
    rw [List.pairwise_cons]
    constructor
    · intro b hb hkey
      have hc := h (key a)
      rw [List.filter_cons, if_pos (by simp)] at hc
      exact List.rel_of_pairwise_cons hc
        (List.mem_filter.2 ⟨hb, by simp [hkey.symm]⟩)
    · apply pairwise_of_filter_pairwise key l
      intro c
      have hc := h c
      rw [List.filter_cons] at hc
      by_cases hac : (key a == c) = true
      · rw [if_pos hac] at hc
        exact (List.pairwise_cons.1 hc).2
      · rw [if_neg hac] at hc
        exact hc

/-- C5: `top_stages` lists at most three pairs, each mapping a stage that
occurs in the table to its exact occurrence count; distinct stages, counts
in descending order, ties ordered by the position of the stage's first
appearance in the table; and every stage left out has a count no larger
than any listed one (so the listed stages are the most frequent ones). -/
theorem top_stages_spec (a : String) (rows : List FeedbackRow) :
    ((extract_signals a rows).top_stages).Pairwise (fun p q => q.2 ≤ p.2) ∧
    ((extract_signals a rows).top_stages).Pairwise (fun p q => p.2 = q.2 →
        (rows.map FeedbackRow.stage).indexOf p.1 <
          (rows.map FeedbackRow.stage).indexOf q.1) ∧
    ((extract_signals a rows).top_stages).length =
      min 3 (firstUniques (rows.map FeedbackRow.stage)).length ∧
    (((extract_signals a rows).top_stages).map Prod.fst).Nodup ∧
    (∀ p ∈ (extract_signals a rows).top_stages,
        p.1 ∈ rows.map FeedbackRow.stage ∧
        p.2 = (rows.map FeedbackRow.stage).count p.1) ∧
    (∀ s ∈ rows.map FeedbackRow.stage,
        s ∉ ((extract_signals a rows).top_stages).map Prod.fst →
        ∀ p ∈ (extract_signals a rows).top_stages,
          (rows.map FeedbackRow.stage).count s ≤ p.2) := by
  set xs := rows.map FeedbackRow.stage with hxs
  have hts : (extract_signals a rows).top_stages = (value_counts xs).take 3 := rfl
  set uc := (firstUniques xs).map (fun s => (s, xs.count s)) with huc
  have hvc : value_counts xs = sortByCountDesc uc := rfl
  have hperm : (value_counts xs).Perm uc := hvc ▸ sortByCountDesc_perm uc
  have hsorted : (value_counts xs).Pairwise (fun p q => q.2 ≤ p.2) :=
    hvc ▸ sortByCountDesc_sorted uc
  have hsub : ((value_counts xs).take 3).Sublist (value_counts xs) :=
    List.take_sublist 3 _
  have hRuc : uc.Pairwise (fun p q => xs.indexOf p.1 < xs.indexOf q.1) := by
    rw [huc, List.pairwise_map]
    exact firstUniques_pairwise_indexOf xs
  have hstable : ∀ c : Nat,
      ((value_counts xs).filter fun q => q.2 == c) =
        uc.filter fun q => q.2 == c :=
    fun c => hvc ▸ sortByCountDesc_stable c uc
  have hties : (value_counts xs).Pairwise
      (fun p q => p.2 = q.2 → xs.indexOf p.1 < xs.indexOf q.1) :=
    pairwise_of_filter_pairwise (fun p : String × Nat => p.2)
      (value_counts xs) (fun c => by rw [hstable c]; exact hRuc.filter _)
  have hlen : (value_counts xs).length = (firstUniques xs).length := by
    rw [hperm.length_eq, huc, List.length_map]
  have hmem_shape : ∀ p ∈ value_counts xs, p.1 ∈ xs ∧ p.2 = xs.count p.1 := by
    intro p hp
    rcases List.mem_map.1 (hperm.mem_iff.1 hp) with ⟨s, hs, rfl⟩
    exact ⟨(mem_firstUniques _).1 hs, rfl⟩
  have hnodup_vc : ((value_counts xs).map Prod.fst).Nodup := by
    have hfst : uc.map Prod.fst = firstUniques xs := by
      rw [huc, List.map_map]
      exact List.map_id _
    rw [(hperm.map Prod.fst).nodup_iff, hfst]
    exact nodup_firstUniques xs
  refine ⟨?_, ?_, ?_, ?_, ?_, ?_⟩
  · rw [hts]
    exact List.Pairwise.sublist hsub hsorted
  · rw [hts]
    exact List.Pairwise.sublist hsub hties
  · rw [hts, List.length_take, hlen, inf_eq_min]
  · rw [hts, List.map_take]
    exact List.Sublist.nodup (List.take_sublist 3 _) hnodup_vc
  · intro p hp
    rw [hts] at hp
    exact hmem_shape p (hsub.subset hp)
  · intro s hs hnot p hp
    rw [hts] at hnot hp
    have hsvc : (s, xs.count s) ∈ value_counts xs :=
      hperm.mem_iff.2 (List.mem_map.2 ⟨s, (mem_firstUniques _).2 hs, rfl⟩)
    have hsplit := List.take_append_drop 3 (value_counts xs)
    have hmem2 : (s, xs.count s) ∈
        (value_counts xs).take 3 ++ (value_counts xs).drop 3 := by
      rw [hsplit]
      exact hsvc
    rcases List.mem_append.1 hmem2 with hin | hin
    · exact absurd (List.mem_map.2 ⟨_, hin, rfl⟩) hnot
    · have hpw : ((value_counts xs).take 3 ++ (value_counts xs).drop 3).Pairwise
          (fun p q => q.2 ≤ p.2) := by
        rw [hsplit]
        exact hsorted
      exact (List.pairwise_append.1 hpw).2.2 p hp (s, xs.count s) hin

/-- Witness for C5 on two concrete tables: a listed pair carries the exact
count of its stage, and a stage crowded out of the top three (only four
distinct stages, seventh row) counts no more than a listed pair. -/
theorem top_stages_spec_witness :
    (("cart", 2) : String × Nat).2 =
      (([⟨"cart", "a", 8⟩, ⟨"shipping", "b", 9⟩, ⟨"cart", "c", 3⟩] :
          List FeedbackRow).map FeedbackRow.stage).count "cart" ∧
    (([⟨"a", "t", 1⟩, ⟨"a", "t", 1⟩, ⟨"b", "t", 1⟩, ⟨"b", "t", 1⟩,
        ⟨"c", "t", 1⟩, ⟨"c", "t", 1⟩, ⟨"d", "t", 1⟩] :
          List FeedbackRow).map FeedbackRow.stage).count "d" ≤
      (("a", 2) : String × Nat).2 := by
  constructor
  · exact ((top_stages_spec ""
      [⟨"cart", "a", 8⟩, ⟨"shipping", "b", 9⟩, ⟨"cart", "c", 3⟩]).2.2.2.2.1
      ("cart", 2) (by decide)).2
  · exact (top_stages_spec ""
      [⟨"a", "t", 1⟩, ⟨"a", "t", 1⟩, ⟨"b", "t", 1⟩, ⟨"b", "t", 1⟩,
       ⟨"c", "t", 1⟩, ⟨"c", "t", 1⟩, ⟨"d", "t", 1⟩]).2.2.2.2.2
      "d" (by decide) (by decide) ("a", 2) (by decide)

/-! ## Agreement of the two layers on a well-formed table -/

def to_df (rows : List FeedbackRow) : Df :=
  { columns := ["checkout_stage", "feedback_text", "signal_score"],
    rows := rows.map fun r => [.str r.stage, .str r.text, .num r.score] }

lemma ok_bind {α β : Type} (a : α) (f : α → Except PdError β) :
    (Except.ok a >>= f) = f a := rfl

lemma df_col_to_df_score (rows : List FeedbackRow) :
    df_col (to_df rows) "signal_score" = .ok (rows.map fun r => Cell.num r.score) := by
  have h : (to_df rows).columns.findIdx? (fun n => n == "signal_score") = some 2 := rfl
  rw [df_col, h]
  show Except.ok ((rows.map fun r => [Cell.str r.stage, Cell.str r.text,
    Cell.num r.score]).map fun r => r.getD 2 (Cell.str "")) = _
  rw [List.map_map]
  rfl

lemma df_col_to_df_stage (rows : List FeedbackRow) :
    df_col (to_df rows) "checkout_stage" = .ok (rows.map fun r => Cell.str r.stage) := by
  have h : (to_df rows).columns.findIdx? (fun n => n == "checkout_stage") = some 0 := rfl
  rw [df_col, h]
  show Except.ok ((rows.map fun r => [Cell.str r.stage, Cell.str r.text,
    Cell.num r.score]).map fun r => r.getD 0 (Cell.str "")) = _
  rw [List.map_map]
  rfl

lemma mapM_cell_gt : ∀ rows : List FeedbackRow,
    (rows.map fun r => Cell.num r.score).mapM (fun c => cell_gt c 7) =
      Except.ok (rows.map fun r => decide ((7 : ℚ) < r.score))
  | [] => rfl
  | r :: l => by
    rw [List.map_cons, List.mapM_cons, mapM_cell_gt l]
    rfl

lemma mapM_cell_num : ∀ rows : List FeedbackRow,
    (rows.map fun r => Cell.num r.score).mapM cell_num =
      Except.ok (rows.map fun r => r.score)
  | [] => rfl
  | r :: l => by
    rw [List.map_cons, List.mapM_cons, mapM_cell_num l]
    rfl

lemma mapM_render_to_df : ∀ l : List FeedbackRow,
    ((l.map fun r => [Cell.str r.stage, Cell.str r.text, Cell.num r.score]).mapM
      fun r => do
        let st ← row_get ["checkout_stage", "feedback_text", "signal_score"] r
          "checkout_stage"
        let tx ← row_get ["checkout_stage", "feedback_text", "signal_score"] r
          "feedback_text"
        let sc ← row_get ["checkout_stage", "feedback_text", "signal_score"] r
          "signal_score"
        pure ("[" ++ show_cell st ++ "] " ++ show_cell tx ++ " (score: " ++
          show_cell sc ++ ")\n")) =
      Except.ok (l.map render_row)
  | [] => rfl
  | r :: l => by
    rw [List.map_cons, List.mapM_cons, mapM_render_to_df l]
    rfl

lemma to_df_rows (rows : List FeedbackRow) :
    (to_df rows).rows = rows.map fun r => [Cell.str r.stage, Cell.str r.text,
      Cell.num r.score] := rfl

lemma to_df_columns (rows : List FeedbackRow) :
    (to_df rows).columns = ["checkout_stage", "feedback_text", "signal_score"] := rfl

lemma prepare_feedback_df_to_df (rows : List FeedbackRow) :
    prepare_feedback_df (to_df rows) = .ok (prepare_feedback rows) := by
  simp only [prepare_feedback_df, df_col_to_df_score, ok_bind, mapM_cell_gt,
    to_df_rows, to_df_columns, List.zip_map', List.filter_map, List.map_map,
    Function.comp_def, mapM_render_to_df, prepare_feedback, high_signal,
    List.foldl_map]
  rfl

lemma extract_signals_df_to_df (a : String) (rows : List FeedbackRow) :
    extract_signals_df a (to_df rows) = .ok (extract_signals a rows) := by
  simp only [extract_signals_df, df_col_to_df_score, df_col_to_df_stage, ok_bind,
    mapM_cell_num, to_df_rows, List.map_map, Function.comp_def, show_cell,
    List.filter_map, List.length_map, extract_signals, extract_signals_at]
  rfl

theorem analyze_batch_df_agrees (claude : String → String)
    (rows : List FeedbackRow) :
    read_csv (to_df rows) = .ok (to_df rows) ∧
    analyze_batch_df claude (to_df rows) = .ok (analyze_batch claude rows) := by
  refine ⟨rfl, ?_⟩
  rw [analyze_batch_df, prepare_feedback_df_to_df, ok_bind, analyze_batch]
  exact extract_signals_df_to_df _ rows

end Voc
